import Mathlib

/-!
Shallow embedding of the AccessAid backend (src/backend): the SQLAlchemy data
model of `database/models.py`, the FastAPI request handlers of `main.py`, and
the fixture generator of `database/seed_data.py`.

Modelling conventions:
* `DateTime` columns become `Nat` (a point on a linear time scale, seconds);
  `datetime.utcnow()` becomes an explicit `now : Nat` parameter threaded into
  each handler, and `timedelta(hours=1)` becomes `3600`.
* `Float` columns become `Rat`.
* Nullable columns become `Option`; `JSON` columns become association lists of
  a small `Json` value type.
* MySQL `AUTO_INCREMENT` primary keys become per-table `next_*` counters in
  the store.
* A handler that can raise `HTTPException` returns `Except ApiError _`; an
  error leaves the store unmodified (FastAPI surfaces the exception before
  `db.commit()` runs, and `get_db` closes the uncommitted session).
-/

namespace AccessAid

/-- A JSON scalar value, for the `JSON` columns of `models.py`. -/
inductive Json where
  | str (s : String) : Json
  | num (q : Rat) : Json
  | bool (b : Bool) : Json
deriving DecidableEq

/-- The apostrophe character, used in string constants of `seed_data.py`. -/
def apos : String := String.singleton (Char.ofNat 39)

/-- Model of passlib bcrypt hashing (`pwd_context.hash` in `main.py`):
a deterministic injective encoding of the PIN, so that verification succeeds
exactly on the PIN that produced the hash. The library itself is out of the
repository; only this contract is relied on. -/
def hash_pin (pin : String) : String := "$2b$" ++ pin

/-- Model of passlib bcrypt verification (`pwd_context.verify` in `main.py`). -/
def verify_pin (pin : String) (hashed_pin : String) : Bool :=
  hashed_pin == hash_pin pin

/-- Model of Python `str.isdigit` restricted to ASCII: true iff the string is
nonempty and all characters are decimal digits. -/
def pyIsdigit (s : String) : Bool :=
  !s.data.isEmpty && s.data.all Char.isDigit

/-- Model of Python `str.lower` restricted to ASCII (character-wise
lowercasing). -/
def pyLower (s : String) : String :=
  String.mk (s.data.map Char.toLower)

/-- Model of Python `str.strip` with no argument: drop whitespace from both
ends. -/
def pyStrip (s : String) : String :=
  String.mk
    (((s.data.dropWhile Char.isWhitespace).reverse.dropWhile Char.isWhitespace).reverse)

/-- Replace every `Z` character by the characters of `+00:00`. -/
def replaceZChars : List Char → List Char
  | [] => []
  | c :: cs =>
    if c = 'Z' then '+' :: '0' :: '0' :: ':' :: '0' :: '0' :: replaceZChars cs
    else c :: replaceZChars cs

/-- Model of the Python call `s.replace('Z', '+00:00')` in `main.py`
(single-character pattern, every occurrence replaced). -/
def pyReplaceZ (s : String) : String :=
  String.mk (replaceZChars s.data)

/-- The numeric value of a decimal digit character. -/
def digitVal (c : Char) : Option Nat :=
  if c.isDigit then some (c.toNat - 48) else none

/-- Encode a validated calendar date-time on the linear `Nat` time scale
(monotone and injective; the exact epoch is irrelevant to the handlers). -/
def encodeDateTime (y mo d h mi s : Nat) : Nat :=
  ((((y * 12 + (mo - 1)) * 31 + (d - 1)) * 24 + h) * 60 + mi) * 60 + s

/-- Parse the fourteen digit characters of a `YYYY-MM-DDTHH:MM:SS` pattern,
with calendar range checks. -/
def parseDateTimeDigits (y1 y2 y3 y4 m1 m2 d1 d2 h1 h2 n1 n2 s1 s2 : Char) :
    Option Nat := do
  let a ← digitVal y1
  let b ← digitVal y2
  let c ← digitVal y3
  let d ← digitVal y4
  let y := ((a * 10 + b) * 10 + c) * 10 + d
  let ma ← digitVal m1
  let mb ← digitVal m2
  let mo := ma * 10 + mb
  let da ← digitVal d1
  let db ← digitVal d2
  let dy := da * 10 + db
  let ha ← digitVal h1
  let hb ← digitVal h2
  let hh := ha * 10 + hb
  let na ← digitVal n1
  let nb ← digitVal n2
  let mi := na * 10 + nb
  let sa ← digitVal s1
  let sb ← digitVal s2
  let se := sa * 10 + sb
  if 1 ≤ mo ∧ mo ≤ 12 ∧ 1 ≤ dy ∧ dy ≤ 31 ∧ hh ≤ 23 ∧ mi ≤ 59 ∧ se ≤ 59 then
    pure (encodeDateTime y mo dy hh mi se)
  else
    none

/-- Model of Python `datetime.fromisoformat` (standard library, not repository
code): accepts the common `YYYY-MM-DDTHH:MM:SS` form, optionally suffixed with
a `+00:00` UTC offset, and rejects every other string. `main.py` calls it only
after replacing `Z` with `+00:00`. -/
def fromisoformat (s : String) : Option Nat :=
  match s.data with
  | [y1, y2, y3, y4, '-', m1, m2, '-', d1, d2, 'T',
     h1, h2, ':', n1, n2, ':', s1, s2] =>
    parseDateTimeDigits y1 y2 y3 y4 m1 m2 d1 d2 h1 h2 n1 n2 s1 s2
  | [y1, y2, y3, y4, '-', m1, m2, '-', d1, d2, 'T',
     h1, h2, ':', n1, n2, ':', s1, s2, '+', '0', '0', ':', '0', '0'] =>
    parseDateTimeDigits y1 y2 y3 y4 m1 m2 d1 d2 h1 h2 n1 n2 s1 s2
  | _ => none

/-- `users` table (`models.py`, class `User`). -/
structure User where
  user_id : Nat
  email : String
  password_hash : String
  first_name : String
  last_name : String
  accessibility_preferences : List (String × Json)
  timezone : String
  is_active : Bool
  created_at : Nat
  updated_at : Nat
deriving DecidableEq

/-- `tasks` table (`models.py`, class `Task`). -/
structure Task where
  id : Nat
  user_id : Nat
  title : String
  description : Option String
  priority : String
  status : String
  category : Option String
  due_date : Option Nat
  created_at : Nat
  updated_at : Nat
  completed_at : Option Nat
  has_voice_reminder : Bool
  reminder_text : Option String
deriving DecidableEq

/-- `reminders` table (`models.py`, class `Reminder`). -/
structure Reminder where
  reminder_id : Nat
  user_id : Nat
  title : String
  description : Option String
  reminder_datetime : Nat
  frequency : String
  priority : String
  is_active : Bool
  is_completed : Bool
  completed_at : Option Nat
  created_at : Nat
  updated_at : Nat
deriving DecidableEq

/-- `notifications` table (`models.py`, class `Notification`). -/
structure Notification where
  notification_id : Nat
  reminder_id : Nat
  user_id : Nat
  notification_type : String
  message : String
  scheduled_time : Nat
  sent_time : Option Nat
  status : String
  is_read : Bool
  read_at : Option Nat
  created_at : Nat
deriving DecidableEq

/-- `tts_history` table (`models.py`, class `TTSHistory`). -/
structure TTSHistory where
  tts_id : Nat
  user_id : Nat
  content : String
  voice_settings : List (String × Json)
  speech_rate : Rat
  volume : Rat
  duration_seconds : Option Rat
  timestamp : Nat
  context : Option String
deriving DecidableEq

/-- `user_settings` table (`models.py`, class `UserSettings`). -/
structure UserSettings where
  setting_id : Nat
  user_id : Nat
  setting_name : String
  setting_value : String
  updated_at : Nat
deriving DecidableEq

/-- `device_sync` table (`models.py`, class `DeviceSync`). -/
structure DeviceSync where
  sync_id : Nat
  user_id : Nat
  device_identifier : String
  last_sync : Nat
  sync_status : String
  sync_data : List (String × Json)
  device_name : Option String
  device_type : Option String
  platform : Option String
  app_version : Option String
  created_at : Nat
deriving DecidableEq

/-- `accessibility_logs` table (`models.py`, class `AccessibilityLog`). -/
structure AccessibilityLog where
  id : Nat
  user_id : Nat
  feature_used : String
  action : String
  timestamp : Nat
  session_id : Option String
  context_data : Option (List (String × Json))
deriving DecidableEq

/-- The relational store: one list per table plus the `AUTO_INCREMENT`
counters (`ml_models` carries no relationships and is not touched by any
handler, so it is omitted). -/
structure DB where
  users : List User := []
  tasks : List Task := []
  reminders : List Reminder := []
  notifications : List Notification := []
  tts_history : List TTSHistory := []
  user_settings : List UserSettings := []
  device_sync : List DeviceSync := []
  accessibility_logs : List AccessibilityLog := []
  next_user_id : Nat := 1
  next_task_id : Nat := 1
  next_reminder_id : Nat := 1
  next_notification_id : Nat := 1
  next_tts_id : Nat := 1
  next_setting_id : Nat := 1
  next_sync_id : Nat := 1
  next_log_id : Nat := 1
deriving DecidableEq

/-- The error kinds raised by the handlers of `main.py` (via
`HTTPException`), each carrying its `detail` message. -/
inductive ApiError where
  | badRequest (detail : String) : ApiError
  | unauthorized (detail : String) : ApiError
  | forbidden (detail : String) : ApiError
  | notFound (detail : String) : ApiError
deriving DecidableEq

/-- The HTTP status code of each error kind. -/
def statusCode : ApiError → Nat
  | .badRequest _ => 400
  | .unauthorized _ => 401
  | .forbidden _ => 403
  | .notFound _ => 404

/-- The default `accessibility_preferences` document installed at
registration (`main.py`, `register_user`). -/
def defaultAccessibilityPreferences : List (String × Json) :=
  [("voice_speed", .num 1),
   ("high_contrast", .bool false),
   ("large_text", .bool false),
   ("voice_navigation", .bool true),
   ("reminder_frequency", .str "normal"),
   ("preferred_voice", .str "default")]

/-- Replace the first element satisfying `p` by its image under `f`, leaving
the rest of the list unchanged: the effect of mutating the ORM object that
`query(...).first()` returned and committing. -/
def replaceFirst : List α → (α → Bool) → (α → α) → List α
  | [], _, _ => []
  | a :: as, p, f => if p a then f a :: as else a :: replaceFirst as p f

/-- `POST /api/auth/register` (`main.py`, `register_user`): reject a duplicate
email (compared against the lowercased input), then a malformed PIN, then
insert the new user with the default preferences document. -/
def register_user (now : Nat) (db : DB) (email pin name : String) :
    Except ApiError (DB × User) :=
  match db.users.find? (fun u => u.email == pyLower email) with
  | some _ => .error (.badRequest "Email already registered")
  | none =>
    if !(pyIsdigit pin && pin.length == 4) then
      .error (.badRequest "PIN must be exactly 4 digits")
    else
      let t := (pyStrip name).data
      let first_name := String.mk (t.takeWhile (fun c => !c.isWhitespace))
      let last_name :=
        String.mk ((t.dropWhile (fun c => !c.isWhitespace)).dropWhile Char.isWhitespace)
      let new_user : User :=
        { user_id := db.next_user_id
          email := pyLower email
          password_hash := hash_pin pin
          first_name := first_name
          last_name := last_name
          accessibility_preferences := defaultAccessibilityPreferences
          timezone := "UTC"
          is_active := true
          created_at := now
          updated_at := now }
      .ok ({ db with users := db.users ++ [new_user],
                     next_user_id := db.next_user_id + 1 }, new_user)

/-- `POST /api/auth/login` (`main.py`, `login_user`): 401 on unknown email or
failed PIN verification, 403 on an inactive account, otherwise the user. -/
def login_user (db : DB) (email pin : String) : Except ApiError User :=
  match db.users.find? (fun u => u.email == pyLower email) with
  | none => .error (.unauthorized "Invalid email or PIN")
  | some user =>
    if !verify_pin pin user.password_hash then
      .error (.unauthorized "Invalid email or PIN")
    else if !user.is_active then
      .error (.forbidden "Account is inactive")
    else
      .ok user

/-- The insert performed by `create_reminder` after the user check and
datetime parsing have succeeded (`main.py`, lines 332-345). -/
def insert_new_reminder (now : Nat) (db : DB) (user_id : Nat)
    (rd_title : String) (rd_description : Option String)
    (rd_frequency rd_priority : String) (parsed_datetime : Nat) :
    DB × Reminder :=
  let reminder : Reminder :=
    { reminder_id := db.next_reminder_id
      user_id := user_id
      title := rd_title
      description := rd_description
      reminder_datetime := parsed_datetime
      frequency := rd_frequency
      priority := rd_priority
      is_active := true
      is_completed := false
      completed_at := none
      created_at := now
      updated_at := now }
  ({ db with reminders := db.reminders ++ [reminder],
             next_reminder_id := db.next_reminder_id + 1 }, reminder)

/-- Request body of `POST /api/users/{user_id}/reminders` (`main.py`,
class `ReminderCreate`). -/
structure ReminderCreate where
  title : String
  description : Option String := none
  reminder_datetime : Option String := none
  frequency : String := "once"
  priority : String := "medium"
deriving DecidableEq

/-- Request body of `PUT /api/reminders/{reminder_id}` (`main.py`,
class `ReminderUpdate`). -/
structure ReminderUpdate where
  title : Option String := none
  description : Option String := none
  reminder_datetime : Option String := none
  frequency : Option String := none
  priority : Option String := none
  is_active : Option Bool := none
  is_completed : Option Bool := none
deriving DecidableEq

/-- `POST /api/users/{user_id}/reminders` (`main.py`, `create_reminder`):
404 if the user row is absent, 400 if the supplied datetime string does not
parse, otherwise insert a reminder; an omitted datetime defaults to
`utcnow() + timedelta(hours=1)`. -/
def create_reminder (now : Nat) (db : DB) (user_id : Nat)
    (rd : ReminderCreate) : Except ApiError (DB × Reminder) :=
  match db.users.find? (fun u => u.user_id == user_id) with
  | none => .error (.notFound "User not found")
  | some _ =>
    match rd.reminder_datetime with
    | some s =>
      match fromisoformat (pyReplaceZ s) with
      | some dt =>
        .ok (insert_new_reminder now db user_id rd.title rd.description
              rd.frequency rd.priority dt)
      | none => .error (.badRequest "Invalid datetime format")
    | none =>
      .ok (insert_new_reminder now db user_id rd.title rd.description
            rd.frequency rd.priority (now + 3600))

/-- The field patches `update_reminder` applies before its datetime parse
(`main.py`, lines 391-394: `title`, `description`). -/
def apply_reminder_update_pre (r : Reminder) (ud : ReminderUpdate) : Reminder :=
  let r := match ud.title with
    | some t => { r with title := t }
    | none => r
  match ud.description with
  | some d => { r with description := some d }
  | none => r

/-- The field patches `update_reminder` applies after its datetime parse
(`main.py`, lines 400-407: `frequency`, `priority`, `is_active`,
`is_completed`), followed by the `onupdate=datetime.utcnow` refresh of
`updated_at` at commit. `completed_at` is never assigned. -/
def apply_reminder_update_post (now : Nat) (r : Reminder) (ud : ReminderUpdate) :
    Reminder :=
  let r := match ud.frequency with
    | some f => { r with frequency := f }
    | none => r
  let r := match ud.priority with
    | some p => { r with priority := p }
    | none => r
  let r := match ud.is_active with
    | some b => { r with is_active := b }
    | none => r
  let r := match ud.is_completed with
    | some b => { r with is_completed := b }
    | none => r
  { r with updated_at := now }

/-- `PUT /api/reminders/{reminder_id}` (`main.py`, `update_reminder`):
404 if the reminder is absent; 400 if a supplied datetime string does not
parse (the session is closed uncommitted, so the store is unchanged);
otherwise patch exactly the supplied fields and commit. -/
def update_reminder (now : Nat) (db : DB) (reminder_id : Nat)
    (ud : ReminderUpdate) : Except ApiError (DB × Reminder) :=
  match db.reminders.find? (fun r => r.reminder_id == reminder_id) with
  | none => .error (.notFound "Reminder not found")
  | some r0 =>
    let r1 := apply_reminder_update_pre r0 ud
    match ud.reminder_datetime with
    | some s =>
      match fromisoformat (pyReplaceZ s) with
      | some dt =>
        let r2 := apply_reminder_update_post now { r1 with reminder_datetime := dt } ud
        let rs := replaceFirst db.reminders
          (fun r => r.reminder_id == reminder_id) (fun _ => r2)
        .ok ({ db with reminders := rs }, r2)
      | none => .error (.badRequest "Invalid datetime format")
    | none =>
      let r2 := apply_reminder_update_post now r1 ud
      let rs := replaceFirst db.reminders
        (fun r => r.reminder_id == reminder_id) (fun _ => r2)
      .ok ({ db with reminders := rs }, r2)

/-- `DELETE /api/reminders/{reminder_id}` (`main.py`, `delete_reminder`):
404 if the reminder is absent; otherwise `db.delete(reminder)`, whose
`cascade="all, delete-orphan"` on `Reminder.notifications` (`models.py`)
also deletes every notification row of that reminder. -/
def delete_reminder (db : DB) (reminder_id : Nat) :
    Except ApiError (DB × String) :=
  match db.reminders.find? (fun r => r.reminder_id == reminder_id) with
  | none => .error (.notFound "Reminder not found")
  | some _ =>
    .ok ({ db with
           reminders :=
             db.reminders.filter (fun r => !(r.reminder_id == reminder_id)),
           notifications :=
             db.notifications.filter (fun n => !(n.reminder_id == reminder_id)) },
         "Reminder deleted successfully")

/-- `POST /api/users/{user_id}/tts-history` (`main.py`, `log_tts_usage`):
no user-existence check of any kind; the row is inserted unconditionally.
Python `or`-defaults (`voice_settings or {}`, `context or "app_usage"`) are
applied to the optional arguments. -/
def log_tts_usage (now : Nat) (db : DB) (user_id : Nat) (content : String)
    (voice_settings : Option (List (String × Json)))
    (speech_rate : Rat) (volume : Rat) (context : Option String) :
    DB × String :=
  let tts_entry : TTSHistory :=
    { tts_id := db.next_tts_id
      user_id := user_id
      content := content
      voice_settings := voice_settings.getD []
      speech_rate := speech_rate
      volume := volume
      duration_seconds := none
      timestamp := now
      context := some (match context with
        | some c => if c.data.isEmpty then "app_usage" else c
        | none => "app_usage") }
  ({ db with tts_history := db.tts_history ++ [tts_entry],
             next_tts_id := db.next_tts_id + 1 },
   "TTS usage logged successfully")

/-- The row predicate of the settings upsert: the `(user_id, setting_name)`
filter of `update_user_setting` (`main.py`, lines 505-508). -/
def pairP (user_id : Nat) (setting_name : String) : UserSettings → Bool :=
  fun s => s.user_id == user_id && s.setting_name == setting_name

/-- `POST /api/users/{user_id}/settings` (`main.py`, `update_user_setting`):
no user-existence check; if a row for `(user_id, setting_name)` exists,
overwrite its `setting_value` and `updated_at` in place, otherwise insert a
new row (whose `updated_at` takes the column default, the commit time). -/
def update_user_setting (now : Nat) (db : DB) (user_id : Nat)
    (setting_name setting_value : String) : DB × String :=
  match db.user_settings.find? (pairP user_id setting_name) with
  | some _ =>
    let ss := replaceFirst db.user_settings (pairP user_id setting_name)
      (fun s => { s with setting_value := setting_value, updated_at := now })
    ({ db with user_settings := ss }, "Setting updated successfully")
  | none =>
    let new_setting : UserSettings :=
      { setting_id := db.next_setting_id
        user_id := user_id
        setting_name := setting_name
        setting_value := setting_value
        updated_at := now }
    let db2 : DB := { db with
      user_settings := db.user_settings ++ [new_setting],
      next_setting_id := db.next_setting_id + 1 }
    (db2, "Setting updated successfully")

/-- The ids of the reminders owned by a user. -/
def userReminderIds (db : DB) (user_id : Nat) : List Nat :=
  (db.reminders.filter (fun r => r.user_id == user_id)).map
    (fun r => r.reminder_id)

/-- `db.delete(user)` under the cascades declared in `models.py`: every
`relationship` on `User` carries `cascade="all, delete-orphan"`, so the
user's tasks, reminders, notifications, TTS history, settings, device-sync
rows and accessibility logs die with it, and the reminder cascade
additionally deletes every notification row of the user's reminders
(exercised by `test_database.py`, `test_model_relationships`). -/
def delete_user (db : DB) (user_id : Nat) : DB :=
  let ownedReminderIds := userReminderIds db user_id
  { db with
    users := db.users.filter (fun u => !(u.user_id == user_id)),
    tasks := db.tasks.filter (fun t => !(t.user_id == user_id)),
    reminders := db.reminders.filter (fun r => !(r.user_id == user_id)),
    notifications := db.notifications.filter
      (fun n => !(n.user_id == user_id || ownedReminderIds.contains n.reminder_id)),
    tts_history := db.tts_history.filter (fun h => !(h.user_id == user_id)),
    user_settings := db.user_settings.filter (fun s => !(s.user_id == user_id)),
    device_sync := db.device_sync.filter (fun d => !(d.user_id == user_id)),
    accessibility_logs :=
      db.accessibility_logs.filter (fun l => !(l.user_id == user_id)) }

/-- Python exceptions that the fixture generator can raise and that
`seed_database`'s `except` clause catches. -/
inductive SeedError where
  | attributeError : SeedError
  | indexError : SeedError
deriving DecidableEq

/-- Model of the Python attribute lookup `users[i].id` in
`create_sample_tasks` (`seed_data.py`, lines 79, 89, 103, 113, 127, 138):
the `User` model declares no column named `id` (its primary key is
`user_id`), so the lookup raises `AttributeError`; modelled as `none`. -/
def pyUserAttrId (_ : User) : Option Nat := none

/-- `seed_data.py`, `create_sample_users`: three fixed users. -/
def create_sample_users (now : Nat) (db : DB) : DB × List User :=
  let user1 : User :=
    { user_id := db.next_user_id
      email := "john@example.com"
      password_hash := "$2b$12$LQv3c1yqBWVHxkd0LHAkCOYz6TtxMQJqhN8/LewdBPj4J/8K8K8K8"
      first_name := "John"
      last_name := "Smith"
      accessibility_preferences :=
        [("voice_speed", .num (8 / 10)),
         ("high_contrast", .bool true),
         ("large_text", .bool true),
         ("voice_navigation", .bool true),
         ("reminder_frequency", .str "high"),
         ("preferred_voice", .str "enhanced")]
      timezone := "America/New_York"
      is_active := true
      created_at := now
      updated_at := now }
  let user2 : User :=
    { user_id := db.next_user_id + 1
      email := "mary@example.com"
      password_hash := "$2b$12$LQv3c1yqBWVHxkd0LHAkCOYz6TtxMQJqhN8/LewdBPj4J/8K8K8K8"
      first_name := "Mary"
      last_name := "Johnson"
      accessibility_preferences :=
        [("voice_speed", .num 1),
         ("high_contrast", .bool false),
         ("large_text", .bool false),
         ("voice_navigation", .bool true),
         ("reminder_frequency", .str "high"),
         ("preferred_voice", .str "clear")]
      timezone := "America/Chicago"
      is_active := true
      created_at := now
      updated_at := now }
  let user3 : User :=
    { user_id := db.next_user_id + 2
      email := "bob@example.com"
      password_hash := "$2b$12$LQv3c1yqBWVHxkd0LHAkCOYz6TtxMQJqhN8/LewdBPj4J/8K8K8K8"
      first_name := "Bob"
      last_name := "Wilson"
      accessibility_preferences :=
        [("voice_speed", .num (7 / 10)),
         ("high_contrast", .bool true),
         ("large_text", .bool true),
         ("voice_navigation", .bool true),
         ("reminder_frequency", .str "normal"),
         ("preferred_voice", .str "simple")]
      timezone := "America/Los_Angeles"
      is_active := true
      created_at := now
      updated_at := now }
  ({ db with users := db.users ++ [user1, user2, user3],
             next_user_id := db.next_user_id + 3 },
   [user1, user2, user3])

/-- `seed_data.py`, `create_sample_tasks`: two tasks per user. Every task
reads the owner id as `users[i].id`, which raises `AttributeError` (the
column is `user_id`), so in fact no task is ever built. The construction is
nevertheless embedded in full as the source writes it. -/
def create_sample_tasks (now : Nat) (db : DB) (users : List User) :
    Except SeedError (DB × List Task) := do
  match users with
  | u0 :: u1 :: u2 :: _ =>
    let uid0 ← match pyUserAttrId u0 with
      | some i => Except.ok i
      | none => Except.error SeedError.attributeError
    let uid1 ← match pyUserAttrId u1 with
      | some i => Except.ok i
      | none => Except.error SeedError.attributeError
    let uid2 ← match pyUserAttrId u2 with
      | some i => Except.ok i
      | none => Except.error SeedError.attributeError
    let nid := db.next_task_id
    let tasks : List Task :=
      [{ id := nid, user_id := uid0, title := "Read medication labels"
         description := some "Use voice assistance to read medication instructions"
         priority := "high", status := "pending", category := some "health"
         due_date := some (now + 2 * 3600), created_at := now, updated_at := now
         completed_at := none, has_voice_reminder := true
         reminder_text := some "Time to take your morning medication. Please use voice assistance to read the label." },
       { id := nid + 1, user_id := uid0, title := "Check email"
         description := some "Review important emails with text-to-speech"
         priority := "medium", status := "pending", category := some "work"
         due_date := some (now + 4 * 3600), created_at := now, updated_at := now
         completed_at := none, has_voice_reminder := true
         reminder_text := some "You have new emails. Would you like me to read them to you?" },
       { id := nid + 2, user_id := uid1, title := "Doctor appointment"
         description := some "Annual checkup at 2:00 PM"
         priority := "high", status := "pending", category := some "health"
         due_date := some (now + 24 * 3600), created_at := now, updated_at := now
         completed_at := none, has_voice_reminder := true
         reminder_text := some ("You have a doctor appointment tomorrow at 2:00 PM. Don" ++ apos ++ "t forget to bring your insurance card.") },
       { id := nid + 3, user_id := uid1, title := "Call pharmacy"
         description := some "Refill prescription for blood pressure medication"
         priority := "medium", status := "pending", category := some "health"
         due_date := some (now + 6 * 3600), created_at := now, updated_at := now
         completed_at := none, has_voice_reminder := true
         reminder_text := some "Time to call the pharmacy for your prescription refill." },
       { id := nid + 4, user_id := uid2, title := "Take a walk"
         description := some "20-minute walk around the neighborhood"
         priority := "medium", status := "pending", category := some "health"
         due_date := some (now + 3 * 3600), created_at := now, updated_at := now
         completed_at := none, has_voice_reminder := true
         reminder_text := some ("It" ++ apos ++ "s time for your daily walk. Remember to wear comfortable shoes and bring water.") },
       { id := nid + 5, user_id := uid2, title := "Family dinner"
         description := some "Dinner with family at 6:00 PM"
         priority := "high", status := "pending", category := some "personal"
         due_date := some (now + 2 * 24 * 3600), created_at := now, updated_at := now
         completed_at := none, has_voice_reminder := true
         reminder_text := some ("Family dinner is in 2 days at 6:00 PM. Don" ++ apos ++ "t forget to bring the dessert you promised.") }]
    Except.ok ({ db with tasks := db.tasks ++ tasks,
                         next_task_id := db.next_task_id + 6 }, tasks)
  | _ => Except.error SeedError.indexError

/-- `seed_data.py`, `create_sample_reminders`: two reminders per user
(these correctly read `users[i].user_id`). -/
def create_sample_reminders (now : Nat) (db : DB) (users : List User) :
    Except SeedError (DB × List Reminder) :=
  match users with
  | u0 :: u1 :: u2 :: _ =>
    let nid := db.next_reminder_id
    let reminders : List Reminder :=
      [{ reminder_id := nid, user_id := u0.user_id, title := "Medication Reminder"
         description := some "Time to take your morning medication. Please use voice assistance to read the label."
         reminder_datetime := now + 30 * 60, frequency := "daily", priority := "high"
         is_active := true, is_completed := false, completed_at := none
         created_at := now, updated_at := now },
       { reminder_id := nid + 1, user_id := u0.user_id, title := "Email Check"
         description := some "You have new emails. Would you like me to read them to you?"
         reminder_datetime := now + 2 * 3600, frequency := "once", priority := "medium"
         is_active := true, is_completed := false, completed_at := none
         created_at := now, updated_at := now },
       { reminder_id := nid + 2, user_id := u1.user_id, title := "Doctor Appointment"
         description := some ("You have a doctor appointment tomorrow at 2:00 PM. Don" ++ apos ++ "t forget to bring your insurance card.")
         reminder_datetime := now + 12 * 3600, frequency := "once", priority := "urgent"
         is_active := true, is_completed := false, completed_at := none
         created_at := now, updated_at := now },
       { reminder_id := nid + 3, user_id := u1.user_id, title := "Pharmacy Call"
         description := some "Time to call the pharmacy for your prescription refill."
         reminder_datetime := now + 4 * 3600, frequency := "weekly", priority := "high"
         is_active := true, is_completed := false, completed_at := none
         created_at := now, updated_at := now },
       { reminder_id := nid + 4, user_id := u2.user_id, title := "Daily Walk"
         description := some ("It" ++ apos ++ "s time for your daily walk. Remember to wear comfortable shoes and bring water.")
         reminder_datetime := now + 3600, frequency := "daily", priority := "medium"
         is_active := true, is_completed := false, completed_at := none
         created_at := now, updated_at := now },
       { reminder_id := nid + 5, user_id := u2.user_id, title := "Family Dinner"
         description := some ("Family dinner is in 2 days at 6:00 PM. Don" ++ apos ++ "t forget to bring the dessert you promised.")
         reminder_datetime := now + 24 * 3600, frequency := "once", priority := "high"
         is_active := true, is_completed := false, completed_at := none
         created_at := now, updated_at := now }]
    Except.ok ({ db with reminders := db.reminders ++ reminders,
                         next_reminder_id := db.next_reminder_id + 6 }, reminders)
  | _ => Except.error SeedError.indexError

/-- Python `reminder.description or reminder.title` (falsy-or). -/
def descOrTitle (r : Reminder) : String :=
  match r.description with
  | some d => if d.data.isEmpty then r.title else d
  | none => r.title

/-- The enumerate-loop body of `create_notifications` (`seed_data.py`): one
voice notification per reminder, plus one push notification scheduled five
minutes early for priority high or urgent; `i` is the enumerate index and
`nid` the next notification id. -/
def buildSeedNotifications (now : Nat) : List Reminder → Nat → Nat → List Notification
  | [], _, _ => []
  | r :: rest, i, nid =>
    let voice : Notification :=
      { notification_id := nid, reminder_id := r.reminder_id, user_id := r.user_id
        notification_type := "voice", message := descOrTitle r
        scheduled_time := r.reminder_datetime
        sent_time := if i < 2 then some now else none
        status := if i < 2 then "sent" else "pending"
        is_read := decide (i < 1), read_at := none, created_at := now }
    if r.priority == "high" || r.priority == "urgent" then
      let push : Notification :=
        { notification_id := nid + 1, reminder_id := r.reminder_id, user_id := r.user_id
          notification_type := "push", message := "Reminder: " ++ r.title
          scheduled_time := r.reminder_datetime - 5 * 60
          sent_time := if i < 3 then some now else none
          status := if i < 3 then "sent" else "pending"
          is_read := false, read_at := none, created_at := now }
      voice :: push :: buildSeedNotifications now rest (i + 1) (nid + 2)
    else
      voice :: buildSeedNotifications now rest (i + 1) (nid + 1)

/-- `seed_data.py`, `create_notifications`. -/
def create_notifications (now : Nat) (db : DB) (reminders : List Reminder) :
    DB × List Notification :=
  let ns := buildSeedNotifications now reminders 0 db.next_notification_id
  ({ db with notifications := db.notifications ++ ns,
             next_notification_id := db.next_notification_id + ns.length }, ns)

/-- The eight settings rows `create_user_settings` builds for the user at
enumerate index `i` (`seed_data.py`). -/
def seedSettingsForUser (i uid nid : Nat) (now : Nat) : List UserSettings :=
  [{ setting_id := nid, user_id := uid, setting_name := "voice_name"
     setting_value := if i == 0 then "enhanced" else if i == 1 then "clear" else "simple"
     updated_at := now },
   { setting_id := nid + 1, user_id := uid, setting_name := "speech_rate"
     setting_value := if i == 0 then "0.8" else if i == 1 then "1.0" else "0.7"
     updated_at := now },
   { setting_id := nid + 2, user_id := uid, setting_name := "theme"
     setting_value := "auto", updated_at := now },
   { setting_id := nid + 3, user_id := uid, setting_name := "font_size"
     setting_value := if i == 0 || i == 2 then "large" else "medium"
     updated_at := now },
   { setting_id := nid + 4, user_id := uid, setting_name := "push_notifications"
     setting_value := "true", updated_at := now },
   { setting_id := nid + 5, user_id := uid, setting_name := "email_notifications"
     setting_value := "true", updated_at := now },
   { setting_id := nid + 6, user_id := uid, setting_name := "reminder_sound"
     setting_value := "true", updated_at := now },
   { setting_id := nid + 7, user_id := uid, setting_name := "high_contrast"
     setting_value := if i == 0 || i == 2 then "true" else "false"
     updated_at := now }]

/-- The enumerate loop of `create_user_settings` (`seed_data.py`). -/
def buildSeedSettings (now : Nat) : List User → Nat → Nat → List UserSettings
  | [], _, _ => []
  | u :: rest, i, nid =>
    seedSettingsForUser i u.user_id nid now ++
      buildSeedSettings now rest (i + 1) (nid + 8)

/-- `seed_data.py`, `create_user_settings`: eight settings per user. -/
def create_user_settings (now : Nat) (db : DB) (users : List User) :
    DB × List UserSettings :=
  let ss := buildSeedSettings now users 0 db.next_setting_id
  ({ db with user_settings := db.user_settings ++ ss,
             next_setting_id := db.next_setting_id + ss.length }, ss)

/-- The per-user voice name of the tts fixtures (`seed_data.py`). -/
def seedVoiceName (i : Nat) : String :=
  if i == 0 then "enhanced" else if i == 1 then "clear" else "simple"

/-- The per-user speech rate of the tts fixtures (`seed_data.py`). -/
def seedSpeechRate (i : Nat) : Rat :=
  if i == 0 then 8 / 10 else if i == 1 then 1 else 7 / 10

/-- The enumerate loop of `create_tts_history` (`seed_data.py`): two history
rows per user. -/
def buildSeedTts (now : Nat) : List User → Nat → Nat → List TTSHistory
  | [], _, _ => []
  | u :: rest, i, nid =>
    [{ tts_id := nid, user_id := u.user_id
       content := "Time to take your morning medication"
       voice_settings := [("voice_name", .str (seedVoiceName i)), ("language", .str "en-US")]
       speech_rate := seedSpeechRate i, volume := 1
       duration_seconds := some (32 / 10), timestamp := now, context := some "reminder" },
     { tts_id := nid + 1, user_id := u.user_id
       content := "You have 3 new tasks to complete today"
       voice_settings := [("voice_name", .str (seedVoiceName i)), ("language", .str "en-US")]
       speech_rate := seedSpeechRate i, volume := 1
       duration_seconds := some (41 / 10), timestamp := now, context := some "notification" }] ++
      buildSeedTts now rest (i + 1) (nid + 2)

/-- `seed_data.py`, `create_tts_history`. -/
def create_tts_history (now : Nat) (db : DB) (users : List User) :
    DB × List TTSHistory :=
  let ts := buildSeedTts now users 0 db.next_tts_id
  ({ db with tts_history := db.tts_history ++ ts,
             next_tts_id := db.next_tts_id + ts.length }, ts)

/-- The enumerate loop of `create_device_sync` (`seed_data.py`): one device
per user. -/
def buildSeedDevices (now : Nat) : List User → Nat → Nat → List DeviceSync
  | [], _, _ => []
  | u :: rest, i, nid =>
    { sync_id := nid, user_id := u.user_id
      device_identifier := "device_" ++ toString u.user_id ++ "_001"
      last_sync := now, sync_status := "active"
      sync_data := [("last_backup", .str (toString now)),
                    ("sync_count", .num 15),
                    ("preferences_synced", .bool true)]
      device_name := some (u.first_name ++ apos ++
        (if i == 0 then "s iPhone" else if i == 1 then "s Android" else "s Tablet"))
      device_type := some (if i < 2 then "mobile" else "tablet")
      platform := some (if i == 0 then "ios" else "android")
      app_version := some "1.0.0", created_at := now } ::
      buildSeedDevices now rest (i + 1) (nid + 1)

/-- `seed_data.py`, `create_device_sync`. -/
def create_device_sync (now : Nat) (db : DB) (users : List User) :
    DB × List DeviceSync :=
  let ds := buildSeedDevices now users 0 db.next_sync_id
  ({ db with device_sync := db.device_sync ++ ds,
             next_sync_id := db.next_sync_id + ds.length }, ds)

/-- The per-user loop of `create_accessibility_logs` (`seed_data.py`):
three log rows per user. -/
def buildSeedLogs (now : Nat) : List User → Nat → List AccessibilityLog
  | [], _ => []
  | u :: rest, nid =>
    [{ id := nid, user_id := u.user_id, feature_used := "tts"
       action := "read_task_description", timestamp := now
       session_id := some "session_001"
       context_data := some [("task_id", .num 1), ("text_length", .num 50)] },
     { id := nid + 1, user_id := u.user_id, feature_used := "voice_navigation"
       action := "navigate_to_reminders", timestamp := now
       session_id := some "session_001"
       context_data := some [("from_screen", .str "home"), ("to_screen", .str "reminders")] },
     { id := nid + 2, user_id := u.user_id, feature_used := "high_contrast"
       action := "toggle_high_contrast", timestamp := now
       session_id := some "session_002"
       context_data := some [("enabled", .bool true)] }] ++
      buildSeedLogs now rest (nid + 3)

/-- `seed_data.py`, `create_accessibility_logs`. -/
def create_accessibility_logs (now : Nat) (db : DB) (users : List User) :
    DB × List AccessibilityLog :=
  let ls := buildSeedLogs now users db.next_log_id
  ({ db with accessibility_logs := db.accessibility_logs ++ ls,
             next_log_id := db.next_log_id + ls.length }, ls)

/-- `seed_data.py`, `seed_database`: run the create functions in order on a
fresh session; each commits as it goes. An exception is caught by the
`except` clause, which logs, rolls the uncommitted work back and closes the
session, so rows committed before the exception survive. -/
def seed_database (now : Nat) (db0 : DB) : DB :=
  let (db1, users) := create_sample_users now db0
  match create_sample_tasks now db1 users with
  | .error _ => db1
  | .ok (db2, _tasks) =>
    match create_sample_reminders now db2 users with
    | .error _ => db2
    | .ok (db3, reminders) =>
      let (db4, _notifications) := create_notifications now db3 reminders
      let (db5, _user_settings) := create_user_settings now db4 users
      let (db6, _tts_history) := create_tts_history now db5 users
      let (db7, _device_syncs) := create_device_sync now db6 users
      let (db8, _logs) := create_accessibility_logs now db7 users
      db8

/-- Run `register_user` the way FastAPI does: an `HTTPException` surfaces as
its status code and leaves the store as it was. -/
def runRegister (now : Nat) (db : DB) (email pin name : String) : DB × Nat :=
  match register_user now db email pin name with
  | .ok (db2, _) => (db2, 200)
  | .error e => (db, statusCode e)

/-- The status code `login_user` answers with (200 on success). -/
def loginStatus (db : DB) (email pin : String) : Nat :=
  match login_user db email pin with
  | .ok _ => 200
  | .error e => statusCode e

/-- Run `create_reminder` the way FastAPI does (store unchanged on error). -/
def runCreateReminder (now : Nat) (db : DB) (user_id : Nat)
    (rd : ReminderCreate) : DB × Nat :=
  match create_reminder now db user_id rd with
  | .ok (db2, _) => (db2, 200)
  | .error e => (db, statusCode e)

/-- Run `delete_reminder` the way FastAPI does (store unchanged on error). -/
def runDeleteReminder (db : DB) (reminder_id : Nat) : DB × Nat :=
  match delete_reminder db reminder_id with
  | .ok (db2, _) => (db2, 200)
  | .error e => (db, statusCode e)

/-- The rows of the `(user_id, setting_name)` pair. -/
def settingsFor (db : DB) (user_id : Nat) (setting_name : String) :
    List UserSettings :=
  db.user_settings.filter (pairP user_id setting_name)

/-- The `(user_id, setting_name)` uniqueness invariant of `user_settings`
(spec table row for UserSettings). -/
def settingsUpsertUnique (db : DB) : Prop :=
  ∀ uid nm, (settingsFor db uid nm).length ≤ 1

/-- The `(setting_value, updated_at)` of the row the upsert would find for a
pair, if any. -/
def valueOfPair (db : DB) (user_id : Nat) (setting_name : String) :
    Option (String × Nat) :=
  (db.user_settings.find? (pairP user_id setting_name)).map
    (fun s => (s.setting_value, s.updated_at))

/-- One call to `POST /api/users/{user_id}/settings`. -/
structure SettingWrite where
  now : Nat
  user_id : Nat
  setting_name : String
  setting_value : String
deriving DecidableEq

/-- Apply a sequence of settings writes in order. -/
def applySettingWrites (db : DB) (ws : List SettingWrite) : DB :=
  ws.foldl
    (fun d w => (update_user_setting w.now d w.user_id w.setting_name w.setting_value).1)
    db

/-- The most recent write in `ws` that targets the pair. -/
def lastSettingWrite (ws : List SettingWrite) (uid : Nat) (nm : String) :
    Option SettingWrite :=
  ws.reverse.find? (fun w => w.user_id == uid && w.setting_name == nm)

/-- Stored emails are pairwise distinct (what the duplicate check enforces on
the lowercased stored form). -/
def storedEmailsDistinct (db : DB) : Prop :=
  db.users.Pairwise (fun u v => u.email ≠ v.email)

/-- Fixture: a registered user (as `register_user` would store one). -/
def sampleUser : User :=
  { user_id := 1
    email := "a@x.com"
    password_hash := hash_pin "1234"
    first_name := "Ann"
    last_name := "B"
    accessibility_preferences := defaultAccessibilityPreferences
    timezone := "UTC"
    is_active := true
    created_at := 0
    updated_at := 0 }

/-- Fixture: a deactivated user. -/
def inactiveUser : User :=
  { user_id := 2
    email := "c@x.com"
    password_hash := hash_pin "9999"
    first_name := "Cal"
    last_name := "D"
    accessibility_preferences := defaultAccessibilityPreferences
    timezone := "UTC"
    is_active := false
    created_at := 0
    updated_at := 0 }

/-- Fixture: a store holding just `sampleUser`. -/
def sampleDB : DB := { users := [sampleUser], next_user_id := 2 }

/-- Fixture: a store holding an active and an inactive user. -/
def authDB : DB := { users := [sampleUser, inactiveUser], next_user_id := 3 }

/-- Fixture: a pending reminder owned by `sampleUser`. -/
def remW : Reminder :=
  { reminder_id := 1
    user_id := 1
    title := "Take pill"
    description := none
    reminder_datetime := 5000
    frequency := "daily"
    priority := "high"
    is_active := true
    is_completed := false
    completed_at := none
    created_at := 0
    updated_at := 0 }

/-- Fixture: a notification belonging to `remW`. -/
def notifW : Notification :=
  { notification_id := 1
    reminder_id := 1
    user_id := 1
    notification_type := "voice"
    message := "Take pill"
    scheduled_time := 5000
    sent_time := none
    status := "pending"
    is_read := false
    read_at := none
    created_at := 0 }

/-- Fixture: a notification belonging to a different reminder. -/
def notifOther : Notification :=
  { notification_id := 2
    reminder_id := 2
    user_id := 1
    notification_type := "push"
    message := "Other"
    scheduled_time := 9000
    sent_time := none
    status := "pending"
    is_read := false
    read_at := none
    created_at := 0 }

/-- Fixture: a store with one reminder and two notifications. -/
def delDB : DB :=
  { users := [sampleUser]
    reminders := [remW]
    notifications := [notifW, notifOther]
    next_user_id := 2
    next_reminder_id := 2
    next_notification_id := 3 }

/-- Fixture: a reminder already carrying a `completed_at` stamp. -/
def remDone : Reminder := { remW with reminder_id := 3, completed_at := some 77 }

/-- Fixture: a store with the pending reminder `remW`. -/
def dbPend : DB := { reminders := [remW], next_reminder_id := 2 }

/-- Fixture: a store with the completed-stamped reminder `remDone`. -/
def dbDone : DB := { reminders := [remDone], next_reminder_id := 4 }

/-- Fixture: a reminder update setting only `is_completed := true`. -/
def udTrue : ReminderUpdate := { is_completed := some true }

/-- Fixture: a reminder update setting only `is_completed := false`. -/
def udFalse : ReminderUpdate := { is_completed := some false }

/-- Fixture: a reminder-creation body with a malformed datetime. -/
def rdBad : ReminderCreate := { title := "T", reminder_datetime := some "not-a-date" }

/-- Fixture: the reminder-creation body of the spec example, datetime
omitted. -/
def rdPill : ReminderCreate := { title := "Take pill", frequency := "daily", priority := "high" }

/-- Fixture: two writes to the same `(user, setting_name)` pair. -/
def wsW : List SettingWrite :=
  [{ now := 10, user_id := 1, setting_name := "theme", setting_value := "dark" },
   { now := 20, user_id := 1, setting_name := "theme", setting_value := "light" }]

/-- Replacing one element preserves the length. -/
theorem replaceFirst_length (l : List α) (p : α → Bool) (f : α → α) :
    (replaceFirst l p f).length = l.length := by
  induction l with
  | nil => rfl
  | cons a as ih => by_cases h : p a <;> simp [replaceFirst, h, ih]

/-- When `f` preserves `p`, searching for `p` after replacing the first
`p`-match returns the image of the original match. -/
theorem find?_replaceFirst_self (l : List α) (p : α → Bool) (f : α → α)
    (hpf : ∀ a, p (f a) = p a) :
    (replaceFirst l p f).find? p = (l.find? p).map f := by
  induction l with
  | nil => rfl
  | cons a as ih =>
    by_cases h : p a
    · rw [replaceFirst, if_pos h, List.find?_cons_of_pos _ (by rw [hpf]; exact h),
        List.find?_cons_of_pos _ h]
      rfl
    · rw [replaceFirst, if_neg h, List.find?_cons_of_neg _ h,
        List.find?_cons_of_neg _ (by simpa using h), ih]

/-- When `f` preserves `q` and no element can satisfy both `p` and `q`,
replacing the first `p`-match is invisible to a `q`-search. -/
theorem find?_replaceFirst_other (l : List α) (p q : α → Bool) (f : α → α)
    (hqf : ∀ a, q (f a) = q a) (hdisj : ∀ a, p a = true → q a = false) :
    (replaceFirst l p f).find? q = l.find? q := by
  induction l with
  | nil => rfl
  | cons a as ih =>
    by_cases h : p a
    · have hq : q a = false := hdisj a h
      rw [replaceFirst, if_pos h, List.find?_cons_of_neg _ (by simp [hqf, hq]),
        List.find?_cons_of_neg _ (by simp [hq])]
    · by_cases h2 : q a
      · rw [replaceFirst, if_neg h, List.find?_cons_of_pos _ h2,
          List.find?_cons_of_pos _ h2]
      · rw [replaceFirst, if_neg h, List.find?_cons_of_neg _ h2,
          List.find?_cons_of_neg _ h2, ih]

/-- When `f` preserves `q`, replacing the first `p`-match does not change how
many elements a `q`-filter keeps. -/
theorem filter_replaceFirst_length (l : List α) (p q : α → Bool) (f : α → α)
    (hqf : ∀ a, q (f a) = q a) :
    ((replaceFirst l p f).filter q).length = (l.filter q).length := by
  induction l with
  | nil => rfl
  | cons a as ih =>
    by_cases h : p a
    · rw [replaceFirst, if_pos h]
      by_cases h2 : q a <;>
        simp [List.filter_cons, hqf, h2]
    · rw [replaceFirst, if_neg h]
      by_cases h2 : q a <;> simp [List.filter_cons, h2, ih]

/-- The filtered length of `l ++ [a]`. -/
theorem length_filter_append_singleton (l : List α) (q : α → Bool) (a : α) :
    (List.filter q (l ++ [a])).length =
      (List.filter q l).length + (if q a then 1 else 0) := by
  rw [List.filter_append]
  by_cases h : q a <;> simp [List.filter, h]

/-- The upsert's effect on the row a later lookup of any pair finds: the
written pair now carries the written value and time, every other pair is
untouched. -/
theorem valueOfPair_update (t : Nat) (db : DB) (uid : Nat) (nm v : String)
    (u2 : Nat) (n2 : String) :
    valueOfPair ((update_user_setting t db uid nm v).1) u2 n2 =
      if u2 = uid ∧ n2 = nm then some (v, t) else valueOfPair db u2 n2 := by
  unfold update_user_setting valueOfPair
  cases hf : db.user_settings.find? (pairP uid nm) with
  | some s0 =>
    simp only [hf]
    by_cases hp : u2 = uid ∧ n2 = nm
    · obtain ⟨h1, h2⟩ := hp
      subst h1; subst h2
      rw [if_pos ⟨rfl, rfl⟩]
      have hself := find?_replaceFirst_self db.user_settings (pairP u2 n2)
        (fun s => { s with setting_value := v, updated_at := t }) (fun a => rfl)
      rw [hself, hf]
      rfl
    · rw [if_neg hp]
      have hdisj : ∀ a, pairP uid nm a = true → pairP u2 n2 a = false := by
        intro a ha
        rw [pairP, Bool.and_eq_true, beq_iff_eq, beq_iff_eq] at ha
        apply Bool.eq_false_iff.mpr
        intro hq
        rw [pairP, Bool.and_eq_true, beq_iff_eq, beq_iff_eq] at hq
        exact hp ⟨hq.1.symm.trans ha.1, hq.2.symm.trans ha.2⟩
      have hother := find?_replaceFirst_other db.user_settings (pairP uid nm)
        (pairP u2 n2) (fun s => { s with setting_value := v, updated_at := t })
        (fun a => rfl) hdisj
      rw [hother]
  | none =>
    simp only [hf]
    rw [List.find?_append]
    by_cases hp : u2 = uid ∧ n2 = nm
    · obtain ⟨h1, h2⟩ := hp
      subst h1; subst h2
      rw [if_pos ⟨rfl, rfl⟩, hf]
      simp [pairP]
    · rw [if_neg hp]
      have hnew : pairP u2 n2
          { setting_id := db.next_setting_id, user_id := uid,
            setting_name := nm, setting_value := v, updated_at := t } = false := by
        apply Bool.eq_false_iff.mpr
        intro hq
        rw [pairP, Bool.and_eq_true, beq_iff_eq, beq_iff_eq] at hq
        exact hp ⟨hq.1.symm, hq.2.symm⟩
      simp [List.find?, hnew]

/-- One upsert preserves the `(user_id, setting_name)` uniqueness invariant. -/
theorem settingsUpsertUnique_update (t : Nat) (db : DB) (uid : Nat) (nm v : String)
    (h : settingsUpsertUnique db) :
    settingsUpsertUnique ((update_user_setting t db uid nm v).1) := by
  intro u2 n2
  unfold settingsFor
  unfold update_user_setting
  cases hf : db.user_settings.find? (pairP uid nm) with
  | some s0 =>
    simp only [hf]
    have hlen := filter_replaceFirst_length db.user_settings (pairP uid nm)
      (pairP u2 n2) (fun s => { s with setting_value := v, updated_at := t })
      (fun a => rfl)
    rw [hlen]
    simpa [settingsFor] using h u2 n2
  | none =>
    simp only [hf]
    rw [length_filter_append_singleton]
    by_cases hq : pairP u2 n2
        { setting_id := db.next_setting_id, user_id := uid,
          setting_name := nm, setting_value := v, updated_at := t } = true
    · have hB : u2 = uid ∧ n2 = nm := by
        rw [pairP, Bool.and_eq_true, beq_iff_eq, beq_iff_eq] at hq
        exact ⟨hq.1.symm, hq.2.symm⟩
      obtain ⟨h1, h2⟩ := hB
      subst h1; subst h2
      have h0 : db.user_settings.filter (pairP u2 n2) = [] :=
        List.filter_eq_nil_iff.mpr (List.find?_eq_none.mp hf)
      rw [h0, if_pos hq]
      simp
    · rw [if_neg hq]
      simpa [settingsFor] using h u2 n2

/-- The most recent matching write of `w :: ws` is the most recent matching
write of `ws`, or else `w` if it matches. -/
theorem lastSettingWrite_cons (w : SettingWrite) (ws : List SettingWrite)
    (uid : Nat) (nm : String) :
    lastSettingWrite (w :: ws) uid nm =
      (lastSettingWrite ws uid nm).or
        (if w.user_id == uid && w.setting_name == nm then some w else none) := by
  unfold lastSettingWrite
  rw [List.reverse_cons, List.find?_append]
  congr 1
  cases hc : (w.user_id == uid && w.setting_name == nm) <;> simp [List.find?, hc]

/-- Any sequence of upserts keeps the uniqueness invariant, and each pair's
row afterwards carries the most recent write to that pair (or its original
value when the sequence never wrote it). -/
theorem applySettingWrites_spec (ws : List SettingWrite) :
    ∀ db : DB, settingsUpsertUnique db →
      settingsUpsertUnique (applySettingWrites db ws) ∧
      ∀ uid nm, valueOfPair (applySettingWrites db ws) uid nm =
        (match lastSettingWrite ws uid nm with
         | some w => some (w.setting_value, w.now)
         | none => valueOfPair db uid nm) := by
  induction ws with
  | nil =>
    intro db h
    exact ⟨h, fun uid nm => by simp [applySettingWrites, lastSettingWrite]⟩
  | cons w ws ih =>
    intro db h
    have hstep := settingsUpsertUnique_update w.now db w.user_id w.setting_name
      w.setting_value h
    have happ : applySettingWrites db (w :: ws) =
        applySettingWrites
          ((update_user_setting w.now db w.user_id w.setting_name w.setting_value).1)
          ws := rfl
    obtain ⟨ih1, ih2⟩ := ih _ hstep
    refine ⟨by rw [happ]; exact ih1, ?_⟩
    intro uid nm
    rw [happ, ih2 uid nm, lastSettingWrite_cons]
    cases hlw : lastSettingWrite ws uid nm with
    | some w2 => simp
    | none =>
      simp only [Option.none_or]
      rw [valueOfPair_update]
      by_cases hB : uid = w.user_id ∧ nm = w.setting_name
      · obtain ⟨h1, h2⟩ := hB
        subst h1; subst h2
        simp
      · rw [if_neg hB]
        have hcond : (w.user_id == uid && w.setting_name == nm) = false := by
          apply Bool.eq_false_iff.mpr
          intro hq
          rw [Bool.and_eq_true, beq_iff_eq, beq_iff_eq] at hq
          exact hB ⟨hq.1.symm, hq.2.symm⟩
        simp [hcond]

/-- Filtering for `p` after keeping only the rows violating `p` leaves
nothing. -/
theorem filter_not_filter_eq_nil (l : List α) (p : α → Bool) :
    (l.filter (fun a => !p a)).filter p = [] := by
  rw [List.filter_eq_nil_iff]
  intro a ha
  have h := (List.mem_filter.mp ha).2
  simp at h
  simp [h]

/-- Claim C2: deleting a User removes every row owned by that user in every
dependent entity type (Task, Reminder, Notification, TTSHistory,
UserSettings, DeviceSync, AccessibilityLog), including the notifications of
that user's reminders; no owned row survives. -/
theorem delete_user_cascade_total (db : DB) (uid : Nat) :
    (delete_user db uid).users.filter (fun u => u.user_id == uid) = [] ∧
    (delete_user db uid).tasks.filter (fun t => t.user_id == uid) = [] ∧
    (delete_user db uid).reminders.filter (fun r => r.user_id == uid) = [] ∧
    (delete_user db uid).notifications.filter
      (fun n => n.user_id == uid || (userReminderIds db uid).contains n.reminder_id)
      = [] ∧
    (delete_user db uid).tts_history.filter (fun h => h.user_id == uid) = [] ∧
    (delete_user db uid).user_settings.filter (fun s => s.user_id == uid) = [] ∧
    (delete_user db uid).device_sync.filter (fun d => d.user_id == uid) = [] ∧
    (delete_user db uid).accessibility_logs.filter (fun l => l.user_id == uid) = [] := by
  unfold delete_user
  refine ⟨?_, ?_, ?_, ?_, ?_, ?_, ?_, ?_⟩ <;>
    exact filter_not_filter_eq_nil _ _

/-- Claim C8: deleting an existing reminder unconditionally removes it and
exactly the notifications carrying its id, touching nothing else; deleting a
missing reminder answers 404 and changes nothing. -/
theorem delete_reminder_cascades_to_notifications (db : DB) (rid : Nat) :
    ((∃ r ∈ db.reminders, r.reminder_id = rid) →
      runDeleteReminder db rid =
        ({ db with
           reminders := db.reminders.filter (fun r => !(r.reminder_id == rid)),
           notifications :=
             db.notifications.filter (fun n => !(n.reminder_id == rid)) },
         200)) ∧
    ((∀ r ∈ db.reminders, r.reminder_id ≠ rid) →
      runDeleteReminder db rid = (db, 404)) := by
  constructor
  · rintro ⟨r, hr, he⟩
    have hsome : (db.reminders.find? (fun r => r.reminder_id == rid)).isSome :=
      List.find?_isSome.mpr ⟨r, hr, by simp [he]⟩
    cases hf : db.reminders.find? (fun r => r.reminder_id == rid) with
    | none => rw [hf] at hsome; simp at hsome
    | some r0 => simp [runDeleteReminder, delete_reminder, hf]
  · intro h
    have hf : db.reminders.find? (fun r => r.reminder_id == rid) = none :=
      List.find?_eq_none.mpr (fun x hx => by simpa using h x hx)
    simp [runDeleteReminder, delete_reminder, hf, statusCode]

/-- Witness for C8 on the concrete store `delDB`: deleting reminder 1
removes it and its notification but keeps the unrelated notification, and
deleting the absent id 99 answers 404 unchanged. -/
theorem delete_reminder_cascades_to_notifications_witness :
    (runDeleteReminder delDB 1).2 = 200 ∧
    (runDeleteReminder delDB 1).1.reminders = [] ∧
    (runDeleteReminder delDB 1).1.notifications = [notifOther] ∧
    runDeleteReminder delDB 99 = (delDB, 404) := by
  have h1 := (delete_reminder_cascades_to_notifications delDB 1).1
    ⟨remW, by simp [delDB], rfl⟩
  have h2 := (delete_reminder_cascades_to_notifications delDB 99).2
    (by intro r hr; simp [delDB] at hr; subst hr; decide)
  rw [h1]
  refine ⟨rfl, by decide, by decide, h2⟩

/-- Claim C9: login answers 401 when the email matches no user or the PIN
fails verification, 403 when the matched user is inactive, and 200 with the
user otherwise (the PIN is checked before the active flag, as in the
source). -/
theorem login_status_cases (db : DB) (e pin : String) :
    (db.users.find? (fun u => u.email == pyLower e) = none →
      login_user db e pin = .error (.unauthorized "Invalid email or PIN") ∧
      loginStatus db e pin = 401) ∧
    (∀ u, db.users.find? (fun u => u.email == pyLower e) = some u →
      verify_pin pin u.password_hash = false →
      login_user db e pin = .error (.unauthorized "Invalid email or PIN") ∧
      loginStatus db e pin = 401) ∧
    (∀ u, db.users.find? (fun u => u.email == pyLower e) = some u →
      verify_pin pin u.password_hash = true → u.is_active = false →
      login_user db e pin = .error (.forbidden "Account is inactive") ∧
      loginStatus db e pin = 403) ∧
    (∀ u, db.users.find? (fun u => u.email == pyLower e) = some u →
      verify_pin pin u.password_hash = true → u.is_active = true →
      login_user db e pin = .ok u ∧ loginStatus db e pin = 200) := by
  refine ⟨?_, ?_, ?_, ?_⟩
  · intro hf; simp [login_user, loginStatus, hf, statusCode]
  · intro u hf hv; simp [login_user, loginStatus, hf, hv, statusCode]
  · intro u hf hv ha; simp [login_user, loginStatus, hf, hv, ha, statusCode]
  · intro u hf hv ha; simp [login_user, loginStatus, hf, hv, ha]

/-- Witness for C9 on the concrete store `authDB`: correct PIN logs in,
wrong PIN gives 401, unknown email gives 401, and the inactive user with a
correct PIN gives 403. -/
theorem login_status_cases_witness :
    loginStatus authDB "a@x.com" "1234" = 200 ∧
    loginStatus authDB "a@x.com" "0000" = 401 ∧
    loginStatus authDB "nobody@x.com" "1234" = 401 ∧
    loginStatus authDB "c@x.com" "9999" = 403 := by
  refine ⟨?_, ?_, ?_, ?_⟩
  · exact ((login_status_cases authDB "a@x.com" "1234").2.2.2 sampleUser
      (by decide) (by decide) (by decide)).2
  · exact ((login_status_cases authDB "a@x.com" "0000").2.1 sampleUser
      (by decide) (by decide)).2
  · exact ((login_status_cases authDB "nobody@x.com" "1234").1 (by decide)).2
  · exact ((login_status_cases authDB "c@x.com" "9999").2.2.1 inactiveUser
      (by decide) (by decide) (by decide)).2

/-- Claim C4: after any sequence of settings writes there is at most one
UserSettings row per `(user_id, setting_name)` pair, its value and
`updated_at` are those of the most recent write to the pair, and a single
write updates an existing row in place (row count unchanged) or inserts a
new row otherwise. -/
theorem settings_upsert_correct (db : DB) (ws : List SettingWrite)
    (hU : settingsUpsertUnique db) :
    settingsUpsertUnique (applySettingWrites db ws) ∧
    (∀ uid nm, valueOfPair (applySettingWrites db ws) uid nm =
      (match lastSettingWrite ws uid nm with
       | some w => some (w.setting_value, w.now)
       | none => valueOfPair db uid nm)) ∧
    (∀ t uid nm v,
      ((valueOfPair db uid nm).isSome →
        (update_user_setting t db uid nm v).1.user_settings.length
          = db.user_settings.length) ∧
      (valueOfPair db uid nm = none →
        (update_user_setting t db uid nm v).1.user_settings.length
          = db.user_settings.length + 1)) := by
  obtain ⟨h1, h2⟩ := applySettingWrites_spec ws db hU
  refine ⟨h1, h2, ?_⟩
  intro t uid nm v
  constructor
  · intro hsome
    unfold valueOfPair at hsome
    cases hf : db.user_settings.find? (pairP uid nm) with
    | none => rw [hf] at hsome; simp at hsome
    | some s0 => simp [update_user_setting, hf, replaceFirst_length]
  · intro hnone
    unfold valueOfPair at hnone
    cases hf : db.user_settings.find? (pairP uid nm) with
    | some s0 => rw [hf] at hnone; simp at hnone
    | none => simp [update_user_setting, hf]

/-- Witness for C4: on the concrete store `sampleDB`, two writes to the pair
`(1, theme)` leave one row holding the later value, and the first write
inserted a fresh row. -/
theorem settings_upsert_correct_witness :
    valueOfPair (applySettingWrites sampleDB wsW) 1 "theme" = some ("light", 20) ∧
    (settingsFor (applySettingWrites sampleDB wsW) 1 "theme").length ≤ 1 ∧
    (update_user_setting 10 sampleDB 1 "theme" "dark").1.user_settings.length
      = sampleDB.user_settings.length + 1 := by
  have h := settings_upsert_correct sampleDB wsW
    (by intro uid nm; simp [settingsFor, sampleDB])
  refine ⟨?_, h.1 1 "theme", ?_⟩
  · rw [h.2.1 1 "theme"]; decide
  · exact (h.2.2 10 1 "theme" "dark").2 (by decide)

/-- Claim C10: the TTS-history logger and the settings upsert perform no
existence check on the referenced user: even when no User row carries the
id, both handlers proceed and insert their row (no NotFound branch), unlike
reminder creation. -/
theorem tts_and_settings_skip_user_check
    (now : Nat) (db : DB) (uid : Nat) (content : String)
    (vs : Option (List (String × Json))) (sr vol : Rat) (ctx : Option String)
    (nm v : String)
    (_hno : ∀ u ∈ db.users, u.user_id ≠ uid) :
    (log_tts_usage now db uid content vs sr vol ctx).2
        = "TTS usage logged successfully" ∧
    (log_tts_usage now db uid content vs sr vol ctx).1.tts_history.length
        = db.tts_history.length + 1 ∧
    (update_user_setting now db uid nm v).2 = "Setting updated successfully" ∧
    valueOfPair (update_user_setting now db uid nm v).1 uid nm = some (v, now) := by
  refine ⟨rfl, by simp [log_tts_usage], ?_, ?_⟩
  · cases hf : db.user_settings.find? (pairP uid nm) <;>
      simp [update_user_setting, hf]
  · rw [valueOfPair_update, if_pos ⟨rfl, rfl⟩]

/-- Witness for C10: with user id 42 absent from `sampleDB`, the TTS log and
the settings write still go through and insert their rows. -/
theorem tts_and_settings_skip_user_check_witness :
    (log_tts_usage 7 sampleDB 42 "hello" none 1 1 none).2
        = "TTS usage logged successfully" ∧
    (log_tts_usage 7 sampleDB 42 "hello" none 1 1 none).1.tts_history.length = 1 ∧
    valueOfPair (update_user_setting 7 sampleDB 42 "dark_mode" "on").1 42 "dark_mode"
        = some ("on", 7) := by
  have h := tts_and_settings_skip_user_check 7 sampleDB 42 "hello" none 1 1 none
    "dark_mode" "on"
    (by intro u hu; simp [sampleDB] at hu; subst hu; decide)
  exact ⟨h.1, by simpa [sampleDB] using h.2.1, h.2.2.2⟩

/-- Claim C7: creating a reminder for an existing user with
`reminder_datetime` omitted schedules it at exactly `now + 3600` and creates
it with `is_active = true` and `is_completed = false`. -/
theorem create_reminder_default_fields
    (now : Nat) (db : DB) (uid : Nat) (rd : ReminderCreate)
    (hdt : rd.reminder_datetime = none)
    (hu : ∃ u ∈ db.users, u.user_id = uid) :
    ((create_reminder now db uid rd).toOption.map (fun p => p.2.reminder_datetime)
        = some (now + 3600)) ∧
    ((create_reminder now db uid rd).toOption.map (fun p => p.2.is_active)
        = some true) ∧
    ((create_reminder now db uid rd).toOption.map (fun p => p.2.is_completed)
        = some false) ∧
    ((create_reminder now db uid rd).toOption.map (fun p => p.1.reminders.length)
        = some (db.reminders.length + 1)) := by
  obtain ⟨u, hm, he⟩ := hu
  have hsome : (db.users.find? (fun x => x.user_id == uid)).isSome :=
    List.find?_isSome.mpr ⟨u, hm, by simp [he]⟩
  cases hf : db.users.find? (fun x => x.user_id == uid) with
  | none => rw [hf] at hsome; simp at hsome
  | some u0 =>
    refine ⟨?_, ?_, ?_, ?_⟩ <;>
      simp [create_reminder, hf, hdt, insert_new_reminder, Except.toOption]

/-- Witness for C7: the spec example reminder for the existing user of
`sampleDB`, created at time 5, is scheduled at 3605, active, incomplete. -/
theorem create_reminder_default_fields_witness :
    ((create_reminder 5 sampleDB 1 rdPill).toOption.map
        (fun p => p.2.reminder_datetime) = some 3605) ∧
    ((create_reminder 5 sampleDB 1 rdPill).toOption.map
        (fun p => p.2.is_active) = some true) ∧
    ((create_reminder 5 sampleDB 1 rdPill).toOption.map
        (fun p => p.2.is_completed) = some false) := by
  have h := create_reminder_default_fields 5 sampleDB 1 rdPill rfl
    ⟨sampleUser, by simp [sampleDB], rfl⟩
  exact ⟨by simpa using h.1, h.2.1, h.2.2.1⟩

/-- Claim C6: reminder creation answers 404 when the user id has no row and
400 when the supplied datetime string does not parse; both error kinds are
distinct and in both cases the store is unchanged. -/
theorem create_reminder_error_paths (now : Nat) (db : DB) (uid : Nat)
    (rd : ReminderCreate) :
    ((∀ u ∈ db.users, u.user_id ≠ uid) →
      create_reminder now db uid rd = .error (.notFound "User not found") ∧
      runCreateReminder now db uid rd = (db, 404)) ∧
    (∀ s, rd.reminder_datetime = some s →
      fromisoformat (pyReplaceZ s) = none →
      (∃ u ∈ db.users, u.user_id = uid) →
      create_reminder now db uid rd = .error (.badRequest "Invalid datetime format") ∧
      runCreateReminder now db uid rd = (db, 400)) ∧
    (∀ d1 d2, ApiError.notFound d1 ≠ ApiError.badRequest d2) := by
  refine ⟨?_, ?_, ?_⟩
  · intro h
    have hf : db.users.find? (fun x => x.user_id == uid) = none :=
      List.find?_eq_none.mpr (fun x hx => by simpa using h x hx)
    exact ⟨by simp [create_reminder, hf],
           by simp [runCreateReminder, create_reminder, hf, statusCode]⟩
  · intro s hs hiso hu
    obtain ⟨u, hm, he⟩ := hu
    have hsome : (db.users.find? (fun x => x.user_id == uid)).isSome :=
      List.find?_isSome.mpr ⟨u, hm, by simp [he]⟩
    cases hf : db.users.find? (fun x => x.user_id == uid) with
    | none => rw [hf] at hsome; simp at hsome
    | some u0 =>
      exact ⟨by simp [create_reminder, hf, hs, hiso],
             by simp [runCreateReminder, create_reminder, hf, hs, hiso, statusCode]⟩
  · intro d1 d2 h
    exact ApiError.noConfusion h

/-- Witness for C6: user 7 is absent from the empty store (404, store
unchanged); the malformed datetime body on `sampleDB` gives 400, store
unchanged. -/
theorem create_reminder_error_paths_witness :
    runCreateReminder 0 ({} : DB) 7 rdPill = ({}, 404) ∧
    runCreateReminder 0 sampleDB 1 rdBad = (sampleDB, 400) := by
  have h1 := (create_reminder_error_paths 0 ({} : DB) 7 rdPill).1
    (by intro u hu; cases hu)
  have h2 := (create_reminder_error_paths 0 sampleDB 1 rdBad).2.1 "not-a-date" rfl
    (by decide) ⟨sampleUser, by simp [sampleDB], rfl⟩
  exact ⟨h1.2, h2.2⟩

/-- Claim C5: a registration whose email equals an already-stored email
(stored emails are the lowercased registration inputs) is rejected with a
400 duplicate-email error and adds no row; a successful registration
appends one user whose stored email is the lowercased input and differs
from every stored email, so stored emails stay pairwise distinct — i.e.
registration inputs stay unique up to letter case. -/
theorem register_duplicate_email_rejected (now : Nat) (db : DB)
    (e pin name : String) :
    ((∃ u ∈ db.users, u.email = pyLower e) →
      register_user now db e pin name = .error (.badRequest "Email already registered") ∧
      runRegister now db e pin name = (db, 400)) ∧
    (∀ db2 u2, register_user now db e pin name = .ok (db2, u2) →
      db2.users = db.users ++ [u2] ∧ u2.email = pyLower e ∧
      (∀ v ∈ db.users, v.email ≠ pyLower e) ∧
      (storedEmailsDistinct db → storedEmailsDistinct db2)) := by
  constructor
  · rintro ⟨u, hm, he⟩
    have hsome : (db.users.find? (fun x => x.email == pyLower e)).isSome :=
      List.find?_isSome.mpr ⟨u, hm, by simp [he]⟩
    cases hf : db.users.find? (fun x => x.email == pyLower e) with
    | none => rw [hf] at hsome; simp at hsome
    | some u0 =>
      exact ⟨by simp [register_user, hf],
             by simp [runRegister, register_user, hf, statusCode]⟩
  · intro db2 u2 hok
    cases hf : db.users.find? (fun x => x.email == pyLower e) with
    | some u0 => simp [register_user, hf] at hok
    | none =>
      by_cases hpin : (pyIsdigit pin && pin.length == 4) = true
      · simp [register_user, hf, hpin] at hok
        obtain ⟨hdb, hu⟩ := hok
        have hmail : ∀ v ∈ db.users, v.email ≠ pyLower e := by
          intro v hv hcontra
          have hnone := List.find?_eq_none.mp hf v hv
          simp [hcontra] at hnone
        refine ⟨?_, ?_, hmail, ?_⟩
        · rw [← hdb, ← hu]
        · rw [← hu]
        · intro hd
          unfold storedEmailsDistinct at hd ⊢
          rw [← hdb]
          rw [List.pairwise_append]
          refine ⟨hd, by simp, ?_⟩
          intro a ha b hb
          rw [List.mem_singleton] at hb
          subst hb
          exact hmail a ha
      · simp [register_user, hf, hpin] at hok

/-- Witness for C5: registering `A@x.com` against `sampleDB`, which already
stores `a@x.com`, answers 400 and leaves the store unchanged. -/
theorem register_duplicate_email_rejected_witness :
    runRegister 3 sampleDB "A@x.com" "5678" "Zed Q" = (sampleDB, 400) :=
  ((register_duplicate_email_rejected 3 sampleDB "A@x.com" "5678" "Zed Q").1
    ⟨sampleUser, by simp [sampleDB], by decide⟩).2

/-- Counterexample to claim C1 as stated: on the concrete store `dbPend`,
the update at time 1000 that sets `is_completed` to true leaves
`completed_at` at `none` — it is not set to the update time. -/
theorem update_is_completed_does_not_stamp_completed_at :
    ((update_reminder 1000 dbPend 1 udTrue).toOption.map
        (fun p => (p.2.is_completed, p.2.completed_at))) = some (true, none) ∧
    ((update_reminder 1000 dbPend 1 udTrue).toOption.map
        (fun p => p.2.completed_at)) ≠ some (some 1000) := by
  exact ⟨by decide, by decide⟩

/-- Claim C1 as amended: an update call never modifies `completed_at` at
all — setting `is_completed` to true does not stamp it and setting it to
false does not clear it; on every successful update the reminder keeps its
previous `completed_at`. -/
theorem update_reminder_never_touches_completed_at
    (now : Nat) (db : DB) (rid : Nat) (ud : ReminderUpdate) (r0 : Reminder)
    (p : DB × Reminder)
    (hf : db.reminders.find? (fun r => r.reminder_id == rid) = some r0)
    (hok : update_reminder now db rid ud = .ok p) :
    p.2.completed_at = r0.completed_at := by
  have hpre : ∀ r, (apply_reminder_update_pre r ud).completed_at = r.completed_at := by
    intro r
    unfold apply_reminder_update_pre
    cases ud.title <;> cases ud.description <;> rfl
  have hpost : ∀ r, (apply_reminder_update_post now r ud).completed_at
      = r.completed_at := by
    intro r
    unfold apply_reminder_update_post
    cases ud.frequency <;> cases ud.priority <;> cases ud.is_active <;>
      cases ud.is_completed <;> rfl
  cases hdt : ud.reminder_datetime with
  | none =>
    have heq : update_reminder now db rid ud = Except.ok ({ db with reminders := replaceFirst db.reminders (fun r => r.reminder_id == rid) (fun _ => apply_reminder_update_post now (apply_reminder_update_pre r0 ud) ud) }, apply_reminder_update_post now (apply_reminder_update_pre r0 ud) ud) := by
      simp [update_reminder, hf, hdt]
    rw [heq] at hok
    injection hok with h
    rw [← h]
    show (apply_reminder_update_post now (apply_reminder_update_pre r0 ud) ud).completed_at
      = r0.completed_at
    rw [hpost]
    exact hpre r0
  | some s =>
    cases hiso : fromisoformat (pyReplaceZ s) with
    | none =>
      have heq : update_reminder now db rid ud =
          .error (.badRequest "Invalid datetime format") := by
        simp [update_reminder, hf, hdt, hiso]
      rw [heq] at hok
      exact Except.noConfusion hok
    | some dt =>
      have heq : update_reminder now db rid ud = Except.ok ({ db with reminders := replaceFirst db.reminders (fun r => r.reminder_id == rid) (fun _ => apply_reminder_update_post now { apply_reminder_update_pre r0 ud with reminder_datetime := dt } ud) }, apply_reminder_update_post now { apply_reminder_update_pre r0 ud with reminder_datetime := dt } ud) := by
        simp [update_reminder, hf, hdt, hiso]
      rw [heq] at hok
      injection hok with h
      rw [← h]
      show (apply_reminder_update_post now
          { apply_reminder_update_pre r0 ud with reminder_datetime := dt } ud).completed_at
        = r0.completed_at
      rw [hpost]
      exact hpre r0

/-- Witness for the amended C1: on `dbDone` the reminder already stamped
`completed_at = 77`; updating `is_completed` to false at time 2000 keeps the
stamp (and does not clear it). -/
theorem update_reminder_never_touches_completed_at_witness :
    ((update_reminder 2000 dbDone 3 udFalse).toOption.map
        (fun q => q.2.completed_at)) = some (some 77) := by
  cases hok : update_reminder 2000 dbDone 3 udFalse with
  | error err =>
    have hs : (update_reminder 2000 dbDone 3 udFalse).toOption.isSome = true := by decide
    rw [hok] at hs
    simp [Except.toOption] at hs
  | ok p =>
    have h := update_reminder_never_touches_completed_at 2000 dbDone 3 udFalse
      remDone p (by decide) hok
    show some (p.2.completed_at) = some (some 77)
    rw [h]
    rfl

/-- Claim C3 evidence: the fixture generator run on an empty store commits
the three sample users and then aborts — `create_sample_tasks` reads
`users[0].id`, an attribute the User model does not define — so no task,
reminder, notification, setting, TTS row, device-sync row or log is ever
created, contradicting the claimed per-user fixture counts. -/
theorem seed_database_stops_after_users (now : Nat) :
    (seed_database now {}).users.length = 3 ∧
    (seed_database now {}).tasks = [] ∧
    (seed_database now {}).reminders = [] ∧
    (seed_database now {}).notifications = [] ∧
    (seed_database now {}).user_settings = [] ∧
    (seed_database now {}).tts_history = [] ∧
    (seed_database now {}).device_sync = [] ∧
    (seed_database now {}).accessibility_logs = [] ∧
    create_sample_tasks now (create_sample_users now {}).1 (create_sample_users now {}).2
      = Except.error SeedError.attributeError :=
  ⟨rfl, rfl, rfl, rfl, rfl, rfl, rfl, rfl, rfl⟩

end AccessAid
